import Mathlib

/-!
# libE57Format: the error taxonomy and the exception carrier

A shallow embedding of `include/E57Exception.h`:

* the enumeration `e57::ErrorCode` (53 canonical enumerators, 51 deprecated
  aliases) together with the integral value of every enumerator;
* the class `e57::E57Exception`: its constructor, its accessors and `report`.

Conventions of the embedding.

* A value of the unscoped enumeration `ErrorCode` is its integral value, an
  `Int`; the enumerators are names, each with a value.
* `const char *` is `Option String`, the null pointer being `none`.
* `int` is `Int`; the header performs no arithmetic on it.
* An output stream is the text written to it so far, a `String`; the stream is
  taken to be in a good state with default formatting, and `std::endl` writes
  one line feed.
* The build flag `E57_ENABLE_DIAGNOSTIC_OUTPUT` is a `Bool` argument.
* An operation whose C++ behaviour is undefined returns `none`.
-/

namespace e57

/-- A value of the enumeration type `ErrorCode`, as its integral value. -/
abbrev ErrorCode := Int

/-- The canonical enumerators of `ErrorCode`, in declaration order. -/
inductive CanonicalKind where
  | Success
  | ErrorBadCVHeader
  | ErrorBadCVPacket
  | ErrorChildIndexOutOfBounds
  | ErrorSetTwice
  | ErrorHomogeneousViolation
  | ErrorValueNotRepresentable
  | ErrorScaledValueNotRepresentable
  | ErrorReal64TooLarge
  | ErrorExpectingNumeric
  | ErrorExpectingUString
  | ErrorInternal
  | ErrorBadXMLFormat
  | ErrorXMLParser
  | ErrorBadAPIArgument
  | ErrorFileReadOnly
  | ErrorBadChecksum
  | ErrorOpenFailed
  | ErrorCloseFailed
  | ErrorReadFailed
  | ErrorWriteFailed
  | ErrorSeekFailed
  | ErrorPathUndefined
  | ErrorBadBuffer
  | ErrorNoBufferForElement
  | ErrorBufferSizeMismatch
  | ErrorBufferDuplicatePathName
  | ErrorBadFileSignature
  | ErrorUnknownFileVersion
  | ErrorBadFileLength
  | ErrorXMLParserInit
  | ErrorDuplicateNamespacePrefix
  | ErrorDuplicateNamespaceURI
  | ErrorBadPrototype
  | ErrorBadCodecs
  | ErrorValueOutOfBounds
  | ErrorConversionRequired
  | ErrorBadPathName
  | ErrorNotImplemented
  | ErrorBadNodeDowncast
  | ErrorWriterNotOpen
  | ErrorReaderNotOpen
  | ErrorNodeUnattached
  | ErrorAlreadyHasParent
  | ErrorDifferentDestImageFile
  | ErrorImageFileNotOpen
  | ErrorBuffersNotCompatible
  | ErrorTooManyWriters
  | ErrorTooManyReaders
  | ErrorBadConfiguration
  | ErrorInvarianceViolation
  | ErrorInvalidNodeType
  | ErrorInvalidData3DValue
  deriving DecidableEq, Repr

/-- The integral value each canonical enumerator is declared with. -/
def CanonicalKind.value : CanonicalKind → ErrorCode
  | .Success => 0
  | .ErrorBadCVHeader => 1
  | .ErrorBadCVPacket => 2
  | .ErrorChildIndexOutOfBounds => 3
  | .ErrorSetTwice => 4
  | .ErrorHomogeneousViolation => 5
  | .ErrorValueNotRepresentable => 6
  | .ErrorScaledValueNotRepresentable => 7
  | .ErrorReal64TooLarge => 8
  | .ErrorExpectingNumeric => 9
  | .ErrorExpectingUString => 10
  | .ErrorInternal => 11
  | .ErrorBadXMLFormat => 12
  | .ErrorXMLParser => 13
  | .ErrorBadAPIArgument => 14
  | .ErrorFileReadOnly => 15
  | .ErrorBadChecksum => 16
  | .ErrorOpenFailed => 17
  | .ErrorCloseFailed => 18
  | .ErrorReadFailed => 19
  | .ErrorWriteFailed => 20
  | .ErrorSeekFailed => 21
  | .ErrorPathUndefined => 22
  | .ErrorBadBuffer => 23
  | .ErrorNoBufferForElement => 24
  | .ErrorBufferSizeMismatch => 25
  | .ErrorBufferDuplicatePathName => 26
  | .ErrorBadFileSignature => 27
  | .ErrorUnknownFileVersion => 28
  | .ErrorBadFileLength => 29
  | .ErrorXMLParserInit => 30
  | .ErrorDuplicateNamespacePrefix => 31
  | .ErrorDuplicateNamespaceURI => 32
  | .ErrorBadPrototype => 33
  | .ErrorBadCodecs => 34
  | .ErrorValueOutOfBounds => 35
  | .ErrorConversionRequired => 36
  | .ErrorBadPathName => 37
  | .ErrorNotImplemented => 38
  | .ErrorBadNodeDowncast => 39
  | .ErrorWriterNotOpen => 40
  | .ErrorReaderNotOpen => 41
  | .ErrorNodeUnattached => 42
  | .ErrorAlreadyHasParent => 43
  | .ErrorDifferentDestImageFile => 44
  | .ErrorImageFileNotOpen => 45
  | .ErrorBuffersNotCompatible => 46
  | .ErrorTooManyWriters => 47
  | .ErrorTooManyReaders => 48
  | .ErrorBadConfiguration => 49
  | .ErrorInvarianceViolation => 50
  | .ErrorInvalidNodeType => 51
  | .ErrorInvalidData3DValue => 52

/-- The deprecated enumerators of `ErrorCode`, in declaration order. -/
inductive DeprecatedAlias where
  | E57_SUCCESS
  | E57_ERROR_BAD_CV_HEADER
  | E57_ERROR_BAD_CV_PACKET
  | E57_ERROR_CHILD_INDEX_OUT_OF_BOUNDS
  | E57_ERROR_SET_TWICE
  | E57_ERROR_HOMOGENEOUS_VIOLATION
  | E57_ERROR_VALUE_NOT_REPRESENTABLE
  | E57_ERROR_SCALED_VALUE_NOT_REPRESENTABLE
  | E57_ERROR_REAL64_TOO_LARGE
  | E57_ERROR_EXPECTING_NUMERIC
  | E57_ERROR_EXPECTING_USTRING
  | E57_ERROR_INTERNAL
  | E57_ERROR_BAD_XML_FORMAT
  | E57_ERROR_XML_PARSER
  | E57_ERROR_BAD_API_ARGUMENT
  | E57_ERROR_FILE_IS_READ_ONLY
  | E57_ERROR_BAD_CHECKSUM
  | E57_ERROR_OPEN_FAILED
  | E57_ERROR_CLOSE_FAILED
  | E57_ERROR_READ_FAILED
  | E57_ERROR_WRITE_FAILED
  | E57_ERROR_LSEEK_FAILED
  | E57_ERROR_PATH_UNDEFINED
  | E57_ERROR_BAD_BUFFER
  | E57_ERROR_NO_BUFFER_FOR_ELEMENT
  | E57_ERROR_BUFFER_SIZE_MISMATCH
  | E57_ERROR_BUFFER_DUPLICATE_PATHNAME
  | E57_ERROR_BAD_FILE_SIGNATURE
  | E57_ERROR_UNKNOWN_FILE_VERSION
  | E57_ERROR_BAD_FILE_LENGTH
  | E57_ERROR_XML_PARSER_INIT
  | E57_ERROR_DUPLICATE_NAMESPACE_PREFIX
  | E57_ERROR_DUPLICATE_NAMESPACE_URI
  | E57_ERROR_BAD_PROTOTYPE
  | E57_ERROR_BAD_CODECS
  | E57_ERROR_VALUE_OUT_OF_BOUNDS
  | E57_ERROR_CONVERSION_REQUIRED
  | E57_ERROR_BAD_PATH_NAME
  | E57_ERROR_NOT_IMPLEMENTED
  | E57_ERROR_BAD_NODE_DOWNCAST
  | E57_ERROR_WRITER_NOT_OPEN
  | E57_ERROR_READER_NOT_OPEN
  | E57_ERROR_NODE_UNATTACHED
  | E57_ERROR_ALREADY_HAS_PARENT
  | E57_ERROR_DIFFERENT_DEST_IMAGEFILE
  | E57_ERROR_IMAGEFILE_NOT_OPEN
  | E57_ERROR_BUFFERS_NOT_COMPATIBLE
  | E57_ERROR_TOO_MANY_WRITERS
  | E57_ERROR_TOO_MANY_READERS
  | E57_ERROR_BAD_CONFIGURATION
  | E57_ERROR_INVARIANCE_VIOLATION
  deriving DecidableEq, Repr

/-- The canonical enumerator a deprecated enumerator is initialised with
(`E57_SUCCESS = Success`, and so on). -/
def DeprecatedAlias.canonical : DeprecatedAlias → CanonicalKind
  | .E57_SUCCESS => .Success
  | .E57_ERROR_BAD_CV_HEADER => .ErrorBadCVHeader
  | .E57_ERROR_BAD_CV_PACKET => .ErrorBadCVPacket
  | .E57_ERROR_CHILD_INDEX_OUT_OF_BOUNDS => .ErrorChildIndexOutOfBounds
  | .E57_ERROR_SET_TWICE => .ErrorSetTwice
  | .E57_ERROR_HOMOGENEOUS_VIOLATION => .ErrorHomogeneousViolation
  | .E57_ERROR_VALUE_NOT_REPRESENTABLE => .ErrorValueNotRepresentable
  | .E57_ERROR_SCALED_VALUE_NOT_REPRESENTABLE => .ErrorScaledValueNotRepresentable
  | .E57_ERROR_REAL64_TOO_LARGE => .ErrorReal64TooLarge
  | .E57_ERROR_EXPECTING_NUMERIC => .ErrorExpectingNumeric
  | .E57_ERROR_EXPECTING_USTRING => .ErrorExpectingUString
  | .E57_ERROR_INTERNAL => .ErrorInternal
  | .E57_ERROR_BAD_XML_FORMAT => .ErrorBadXMLFormat
  | .E57_ERROR_XML_PARSER => .ErrorXMLParser
  | .E57_ERROR_BAD_API_ARGUMENT => .ErrorBadAPIArgument
  | .E57_ERROR_FILE_IS_READ_ONLY => .ErrorFileReadOnly
  | .E57_ERROR_BAD_CHECKSUM => .ErrorBadChecksum
  | .E57_ERROR_OPEN_FAILED => .ErrorOpenFailed
  | .E57_ERROR_CLOSE_FAILED => .ErrorCloseFailed
  | .E57_ERROR_READ_FAILED => .ErrorReadFailed
  | .E57_ERROR_WRITE_FAILED => .ErrorWriteFailed
  | .E57_ERROR_LSEEK_FAILED => .ErrorSeekFailed
  | .E57_ERROR_PATH_UNDEFINED => .ErrorPathUndefined
  | .E57_ERROR_BAD_BUFFER => .ErrorBadBuffer
  | .E57_ERROR_NO_BUFFER_FOR_ELEMENT => .ErrorNoBufferForElement
  | .E57_ERROR_BUFFER_SIZE_MISMATCH => .ErrorBufferSizeMismatch
  | .E57_ERROR_BUFFER_DUPLICATE_PATHNAME => .ErrorBufferDuplicatePathName
  | .E57_ERROR_BAD_FILE_SIGNATURE => .ErrorBadFileSignature
  | .E57_ERROR_UNKNOWN_FILE_VERSION => .ErrorUnknownFileVersion
  | .E57_ERROR_BAD_FILE_LENGTH => .ErrorBadFileLength
  | .E57_ERROR_XML_PARSER_INIT => .ErrorXMLParserInit
  | .E57_ERROR_DUPLICATE_NAMESPACE_PREFIX => .ErrorDuplicateNamespacePrefix
  | .E57_ERROR_DUPLICATE_NAMESPACE_URI => .ErrorDuplicateNamespaceURI
  | .E57_ERROR_BAD_PROTOTYPE => .ErrorBadPrototype
  | .E57_ERROR_BAD_CODECS => .ErrorBadCodecs
  | .E57_ERROR_VALUE_OUT_OF_BOUNDS => .ErrorValueOutOfBounds
  | .E57_ERROR_CONVERSION_REQUIRED => .ErrorConversionRequired
  | .E57_ERROR_BAD_PATH_NAME => .ErrorBadPathName
  | .E57_ERROR_NOT_IMPLEMENTED => .ErrorNotImplemented
  | .E57_ERROR_BAD_NODE_DOWNCAST => .ErrorBadNodeDowncast
  | .E57_ERROR_WRITER_NOT_OPEN => .ErrorWriterNotOpen
  | .E57_ERROR_READER_NOT_OPEN => .ErrorReaderNotOpen
  | .E57_ERROR_NODE_UNATTACHED => .ErrorNodeUnattached
  | .E57_ERROR_ALREADY_HAS_PARENT => .ErrorAlreadyHasParent
  | .E57_ERROR_DIFFERENT_DEST_IMAGEFILE => .ErrorDifferentDestImageFile
  | .E57_ERROR_IMAGEFILE_NOT_OPEN => .ErrorImageFileNotOpen
  | .E57_ERROR_BUFFERS_NOT_COMPATIBLE => .ErrorBuffersNotCompatible
  | .E57_ERROR_TOO_MANY_WRITERS => .ErrorTooManyWriters
  | .E57_ERROR_TOO_MANY_READERS => .ErrorTooManyReaders
  | .E57_ERROR_BAD_CONFIGURATION => .ErrorBadConfiguration
  | .E57_ERROR_INVARIANCE_VIOLATION => .ErrorInvarianceViolation

/-- The integral value of a deprecated enumerator: that of its initialiser. -/
def DeprecatedAlias.value (a : DeprecatedAlias) : ErrorCode :=
  a.canonical.value

/-- All canonical enumerators, in declaration order. -/
def CanonicalKind.all : List CanonicalKind :=
  [.Success,
   .ErrorBadCVHeader,
   .ErrorBadCVPacket,
   .ErrorChildIndexOutOfBounds,
   .ErrorSetTwice,
   .ErrorHomogeneousViolation,
   .ErrorValueNotRepresentable,
   .ErrorScaledValueNotRepresentable,
   .ErrorReal64TooLarge,
   .ErrorExpectingNumeric,
   .ErrorExpectingUString,
   .ErrorInternal,
   .ErrorBadXMLFormat,
   .ErrorXMLParser,
   .ErrorBadAPIArgument,
   .ErrorFileReadOnly,
   .ErrorBadChecksum,
   .ErrorOpenFailed,
   .ErrorCloseFailed,
   .ErrorReadFailed,
   .ErrorWriteFailed,
   .ErrorSeekFailed,
   .ErrorPathUndefined,
   .ErrorBadBuffer,
   .ErrorNoBufferForElement,
   .ErrorBufferSizeMismatch,
   .ErrorBufferDuplicatePathName,
   .ErrorBadFileSignature,
   .ErrorUnknownFileVersion,
   .ErrorBadFileLength,
   .ErrorXMLParserInit,
   .ErrorDuplicateNamespacePrefix,
   .ErrorDuplicateNamespaceURI,
   .ErrorBadPrototype,
   .ErrorBadCodecs,
   .ErrorValueOutOfBounds,
   .ErrorConversionRequired,
   .ErrorBadPathName,
   .ErrorNotImplemented,
   .ErrorBadNodeDowncast,
   .ErrorWriterNotOpen,
   .ErrorReaderNotOpen,
   .ErrorNodeUnattached,
   .ErrorAlreadyHasParent,
   .ErrorDifferentDestImageFile,
   .ErrorImageFileNotOpen,
   .ErrorBuffersNotCompatible,
   .ErrorTooManyWriters,
   .ErrorTooManyReaders,
   .ErrorBadConfiguration,
   .ErrorInvarianceViolation,
   .ErrorInvalidNodeType,
   .ErrorInvalidData3DValue]

/-- All deprecated enumerators, in declaration order. -/
def DeprecatedAlias.all : List DeprecatedAlias :=
  [.E57_SUCCESS,
   .E57_ERROR_BAD_CV_HEADER,
   .E57_ERROR_BAD_CV_PACKET,
   .E57_ERROR_CHILD_INDEX_OUT_OF_BOUNDS,
   .E57_ERROR_SET_TWICE,
   .E57_ERROR_HOMOGENEOUS_VIOLATION,
   .E57_ERROR_VALUE_NOT_REPRESENTABLE,
   .E57_ERROR_SCALED_VALUE_NOT_REPRESENTABLE,
   .E57_ERROR_REAL64_TOO_LARGE,
   .E57_ERROR_EXPECTING_NUMERIC,
   .E57_ERROR_EXPECTING_USTRING,
   .E57_ERROR_INTERNAL,
   .E57_ERROR_BAD_XML_FORMAT,
   .E57_ERROR_XML_PARSER,
   .E57_ERROR_BAD_API_ARGUMENT,
   .E57_ERROR_FILE_IS_READ_ONLY,
   .E57_ERROR_BAD_CHECKSUM,
   .E57_ERROR_OPEN_FAILED,
   .E57_ERROR_CLOSE_FAILED,
   .E57_ERROR_READ_FAILED,
   .E57_ERROR_WRITE_FAILED,
   .E57_ERROR_LSEEK_FAILED,
   .E57_ERROR_PATH_UNDEFINED,
   .E57_ERROR_BAD_BUFFER,
   .E57_ERROR_NO_BUFFER_FOR_ELEMENT,
   .E57_ERROR_BUFFER_SIZE_MISMATCH,
   .E57_ERROR_BUFFER_DUPLICATE_PATHNAME,
   .E57_ERROR_BAD_FILE_SIGNATURE,
   .E57_ERROR_UNKNOWN_FILE_VERSION,
   .E57_ERROR_BAD_FILE_LENGTH,
   .E57_ERROR_XML_PARSER_INIT,
   .E57_ERROR_DUPLICATE_NAMESPACE_PREFIX,
   .E57_ERROR_DUPLICATE_NAMESPACE_URI,
   .E57_ERROR_BAD_PROTOTYPE,
   .E57_ERROR_BAD_CODECS,
   .E57_ERROR_VALUE_OUT_OF_BOUNDS,
   .E57_ERROR_CONVERSION_REQUIRED,
   .E57_ERROR_BAD_PATH_NAME,
   .E57_ERROR_NOT_IMPLEMENTED,
   .E57_ERROR_BAD_NODE_DOWNCAST,
   .E57_ERROR_WRITER_NOT_OPEN,
   .E57_ERROR_READER_NOT_OPEN,
   .E57_ERROR_NODE_UNATTACHED,
   .E57_ERROR_ALREADY_HAS_PARENT,
   .E57_ERROR_DIFFERENT_DEST_IMAGEFILE,
   .E57_ERROR_IMAGEFILE_NOT_OPEN,
   .E57_ERROR_BUFFERS_NOT_COMPATIBLE,
   .E57_ERROR_TOO_MANY_WRITERS,
   .E57_ERROR_TOO_MANY_READERS,
   .E57_ERROR_BAD_CONFIGURATION,
   .E57_ERROR_INVARIANCE_VIOLATION]

/-- The canonical enumerator with a given integral value, when there is one. -/
def CanonicalKind.ofValue? (v : ErrorCode) : Option CanonicalKind :=
  CanonicalKind.all.find? (fun k => k.value == v)

/-- The string `Utilities::errorCodeToString` returns for a value outside the
enumeration. -/
def unrecognizedErrorCode : String := "unrecognized error code"

/-- Modelled from the spec: the body of `Utilities::errorCodeToString`, which the
header only declares (it is defined in `E57Exception.cpp`). The lookup is by
integral value; every enumerated value resolves to the description documented
next to its enumerator in the header, and a value outside the enumeration
resolves to one fixed string. -/
def Utilities.errorCodeToString (ecode : ErrorCode) : String :=
  match ecode with
  | 0 => "operation was successful"
  | 1 => "a CompressedVector binary header was bad"
  | 2 => "a CompressedVector binary packet was bad"
  | 3 => "a numerical index identifying a child was out of bounds"
  | 4 => "attempted to set an existing child element to a new value"
  | 5 => "attempted to add an element that would have made the children of a homogeneous ::TypeVector have different types"
  | 6 => "a value could not be represented in the requested type"
  | 7 => "after scaling the result could not be represented in the requested type"
  | 8 => "a 64 bit IEEE float was too large to store in a 32 bit IEEE float"
  | 9 => "expecting numeric representation in user's buffer, found ustring"
  | 10 => "expecting string representation in user's buffer, found numeric"
  | 11 => "An unrecoverable inconsistent internal state was detected"
  | 12 => "E57 primitive not encoded in XML correctly"
  | 13 => "XML not well formed"
  | 14 => "bad API function argument provided by user"
  | 15 => "can't modify read only file"
  | 16 => "checksum mismatch, file is corrupted"
  | 17 => "open() failed"
  | 18 => "close() failed"
  | 19 => "read() failed"
  | 20 => "write() failed"
  | 21 => "lseek() failed"
  | 22 => "element path well formed but not defined"
  | 23 => "bad SourceDestBuffer"
  | 24 => "no buffer specified for an element in CompressedVectorNode during write"
  | 25 => "SourceDestBuffers not all same size"
  | 26 => "duplicate pathname in CompressedVectorNode read/write"
  | 27 => "file signature not \"ASTM-E57\""
  | 28 => "incompatible file version"
  | 29 => "size in file header not same as actual"
  | 30 => "XML parser failed to initialize"
  | 31 => "namespace prefix already defined"
  | 32 => "namespace URI already defined"
  | 33 => "bad prototype in CompressedVectorNode"
  | 34 => "bad codecs in CompressedVectorNode"
  | 35 => "element value out of min/max bounds"
  | 36 => "conversion required to assign element value, but not requested"
  | 37 => "E57 path name is not well formed"
  | 38 => "functionality not implemented"
  | 39 => "bad downcast from Node to specific node type"
  | 40 => "CompressedVectorWriter is no longer open"
  | 41 => "CompressedVectorReader is no longer open"
  | 42 => "node is not yet attached to tree of ImageFile"
  | 43 => "node already has a parent"
  | 44 => "nodes were constructed with different destImageFiles"
  | 45 => "destImageFile is no longer open"
  | 46 => "SourceDestBuffers not compatible with previously given ones"
  | 47 => "too many open CompressedVectorWriters of an ImageFile"
  | 48 => "too many open CompressedVectorReaders of an ImageFile"
  | 49 => "bad configuration string"
  | 50 => "class invariance constraint violation in debug mode"
  | 51 => "an invalid node type was passed in Data3D pointFields"
  | 52 => "passed an invalid value in Data3D pointFields"
  | _ => unrecognizedErrorCode
/-- The line terminator `std::endl` writes to the stream. -/
def endl : String := "\n"

/-- The data members of `class E57Exception`. `sourceFileName_` is a
`std::string`; `sourceFunctionName_` is a `const char *` and may be null. -/
structure E57Exception where
  errorCode_ : ErrorCode
  context_ : String
  sourceFileName_ : String
  sourceFunctionName_ : Option String
  sourceLineNumber_ : Int
  deriving DecidableEq, Repr

/-- The default argument of the constructor parameter `srcFileName`. -/
def E57Exception.defaultSrcFileName : Option String := none

/-- The default argument of the constructor parameter `srcLineNumber`. -/
def E57Exception.defaultSrcLineNumber : Int := 0

/-- The default argument of the constructor parameter `srcFunctionName`. -/
def E57Exception.defaultSrcFunctionName : Option String := none

/-- The constructor
`E57Exception( ecode, context, srcFileName, srcLineNumber, srcFunctionName )`.
The member `sourceFileName_` is a `std::string` initialised from the pointer
`srcFileName`; building a `std::string` from a null pointer has undefined
behaviour, so no object is produced in that case. -/
def E57Exception.new (ecode : ErrorCode) (context : String) (srcFileName : Option String)
    (srcLineNumber : Int) (srcFunctionName : Option String) : Option E57Exception :=
  match srcFileName with
  | none => none
  | some fileName =>
    some { errorCode_ := ecode
           context_ := context
           sourceFileName_ := fileName
           sourceFunctionName_ := srcFunctionName
           sourceLineNumber_ := srcLineNumber }

/-- The accessor `errorCode()`. -/
def E57Exception.errorCode (self : E57Exception) : ErrorCode :=
  self.errorCode_

/-- The accessor `errorStr()`. -/
def E57Exception.errorStr (self : E57Exception) : String :=
  Utilities.errorCodeToString self.errorCode_

/-- The accessor `context()`. -/
def E57Exception.context (self : E57Exception) : String :=
  self.context_

/-- The accessor `sourceFileName()`: the characters of `sourceFileName_`. -/
def E57Exception.sourceFileName (self : E57Exception) : String :=
  self.sourceFileName_

/-- The accessor `sourceFunctionName()`. -/
def E57Exception.sourceFunctionName (self : E57Exception) : Option String :=
  self.sourceFunctionName_

/-- The accessor `sourceLineNumber()`. -/
def E57Exception.sourceLineNumber (self : E57Exception) : Int :=
  self.sourceLineNumber_

/-- The member function `what()`. -/
def E57Exception.what (_self : E57Exception) : String :=
  "E57 exception"

/-- The part of `report` compiled when `E57_ENABLE_DIAGNOSTIC_OUTPUT` is
defined. Inserting a null `const char *` into a stream has undefined behaviour,
which is the case of a null `sourceFunctionName_`; the two reporting pointers
are tested before they are written. -/
def E57Exception.reportDiagnostics (self : E57Exception) (reportingFileName : Option String)
    (reportingLineNumber : Int) (reportingFunctionName : Option String)
    (os : String) : Option String :=
  let os := os ++ "  Debug info: " ++ endl
  let os := os ++ "    context: " ++ self.context_ ++ endl
  match self.sourceFunctionName_ with
  | none => none
  | some sourceFunctionName =>
    let os := os ++ "    sourceFunctionName: " ++ sourceFunctionName ++ endl
    let os :=
      match reportingFunctionName with
      | some name => os ++ "    reportingFunctionName: " ++ name ++ endl
      | none => os
    let os := os ++ self.sourceFileName_ ++ "(" ++ toString self.sourceLineNumber_
      ++ ") : error C" ++ toString self.errorCode_ ++ ":  <--- occurred on" ++ endl
    match reportingFileName with
    | some fileName =>
      some (os ++ fileName ++ "(" ++ toString reportingLineNumber
        ++ ") : error C0:  <--- reported on" ++ endl)
    | none => some os

/-- The member function `report`, writing to the stream `os`; the result is the
content of the stream afterwards. `diagnosticOutput` tells whether
`E57_ENABLE_DIAGNOSTIC_OUTPUT` is defined; without it the three reporting
arguments are unused. -/
def E57Exception.report (diagnosticOutput : Bool) (self : E57Exception)
    (reportingFileName : Option String) (reportingLineNumber : Int)
    (reportingFunctionName : Option String) (os : String) : Option String :=
  let os := os ++ "**** Got an e57 exception: " ++ self.errorStr ++ endl
  if diagnosticOutput then
    self.reportDiagnostics reportingFileName reportingLineNumber reportingFunctionName os
  else
    some os

/-! ## The enumeration -/

/-- Looking a canonical enumerator up by its own value finds that enumerator. -/
theorem CanonicalKind.ofValue?_value (k : CanonicalKind) :
    CanonicalKind.ofValue? k.value = some k := by
  cases k <;> rfl

/-- Every canonical enumerator has a value between 0 and 52. -/
theorem CanonicalKind.value_range (k : CanonicalKind) : 0 ≤ k.value ∧ k.value ≤ 52 := by
  cases k <;> decide

/-- Every value between 0 and 52 is found by the lookup, with that value. -/
theorem CanonicalKind.ofValue?_of_range (n : ErrorCode) (h0 : 0 ≤ n) (h52 : n ≤ 52) :
    ∃ k, CanonicalKind.ofValue? n = some k ∧ k.value = n := by
  interval_cases n <;> exact ⟨_, rfl, rfl⟩

/-- C3: two distinct canonical enumerators (`Success` and the 52 `Error*` names)
have different integral values: the map from canonical kinds to values is
injective. -/
theorem CanonicalKind.value_ne_of_ne (a b : CanonicalKind) (h : a ≠ b) :
    a.value ≠ b.value := by
  intro hv
  apply h
  have ha := CanonicalKind.ofValue?_value a
  have hb := CanonicalKind.ofValue?_value b
  rw [hv, hb] at ha
  exact (Option.some.inj ha).symm

/-- C3 at `ErrorBadChecksum` and `ErrorOpenFailed`. -/
theorem CanonicalKind.value_ne_of_ne_witness :
    CanonicalKind.ErrorBadChecksum ≠ CanonicalKind.ErrorOpenFailed ∧
      CanonicalKind.ErrorBadChecksum.value ≠ CanonicalKind.ErrorOpenFailed.value :=
  ⟨by decide, CanonicalKind.value_ne_of_ne .ErrorBadChecksum .ErrorOpenFailed (by decide)⟩

/-- C4: the integral values of the canonical enumerators are exactly the integers
0, 1, ..., 52: an integer is the value of some canonical enumerator if and only
if it lies in that range. -/
theorem CanonicalKind.value_set (n : ErrorCode) :
    (∃ k : CanonicalKind, k.value = n) ↔ 0 ≤ n ∧ n ≤ 52 := by
  constructor
  · rintro ⟨k, rfl⟩
    exact CanonicalKind.value_range k
  · rintro ⟨h0, h52⟩
    obtain ⟨k, -, hk⟩ := CanonicalKind.ofValue?_of_range n h0 h52
    exact ⟨k, hk⟩

/-- C5: `Success` has the value 0, and every canonical enumerator other than
`Success` has a strictly positive value, so `Success` is the only one with the
value 0. -/
theorem CanonicalKind.success_only_zero :
    CanonicalKind.Success.value = 0 ∧
      ∀ k : CanonicalKind, k ≠ CanonicalKind.Success → 0 < k.value := by
  refine ⟨rfl, ?_⟩
  intro k hk
  cases k <;> first | exact absurd rfl hk | decide

/-- C5 at `ErrorBadCVHeader`. -/
theorem CanonicalKind.success_only_zero_witness :
    CanonicalKind.ErrorBadCVHeader ≠ CanonicalKind.Success ∧
      0 < CanonicalKind.ErrorBadCVHeader.value :=
  ⟨by decide, CanonicalKind.success_only_zero.2 .ErrorBadCVHeader (by decide)⟩

/-- C6: every deprecated enumerator (`E57_SUCCESS` and every `E57_ERROR_*` name)
has the integral value of some canonical enumerator, hence a value between 0 and
52: the aliases add no value that is not already a canonical one. -/
theorem DeprecatedAlias.value_is_canonical (a : DeprecatedAlias) :
    (∃ c : CanonicalKind, a.value = c.value) ∧ 0 ≤ a.value ∧ a.value ≤ 52 := by
  cases a <;> exact ⟨⟨_, rfl⟩, by decide, by decide⟩

/-- C7: a deprecated enumerator and the canonical enumerator it is bound to have
the same integral value and the same description, under `errorCodeToString` as
under any other lookup by value; the two bounds-error aliases
agree in value and description with `ErrorChildIndexOutOfBounds` (3) and
`ErrorValueOutOfBounds` (35). -/
theorem DeprecatedAlias.agrees_with_canonical :
    (∀ a : DeprecatedAlias, a.value = a.canonical.value ∧
      Utilities.errorCodeToString a.value = Utilities.errorCodeToString a.canonical.value ∧
      ∀ describe : ErrorCode → String, describe a.value = describe a.canonical.value) ∧
    (DeprecatedAlias.E57_ERROR_CHILD_INDEX_OUT_OF_BOUNDS.canonical
        = CanonicalKind.ErrorChildIndexOutOfBounds ∧
      DeprecatedAlias.E57_ERROR_CHILD_INDEX_OUT_OF_BOUNDS.value = 3 ∧
      CanonicalKind.ErrorChildIndexOutOfBounds.value = 3 ∧
      Utilities.errorCodeToString DeprecatedAlias.E57_ERROR_CHILD_INDEX_OUT_OF_BOUNDS.value
        = Utilities.errorCodeToString CanonicalKind.ErrorChildIndexOutOfBounds.value) ∧
    (DeprecatedAlias.E57_ERROR_VALUE_OUT_OF_BOUNDS.canonical
        = CanonicalKind.ErrorValueOutOfBounds ∧
      DeprecatedAlias.E57_ERROR_VALUE_OUT_OF_BOUNDS.value = 35 ∧
      CanonicalKind.ErrorValueOutOfBounds.value = 35 ∧
      Utilities.errorCodeToString DeprecatedAlias.E57_ERROR_VALUE_OUT_OF_BOUNDS.value
        = Utilities.errorCodeToString CanonicalKind.ErrorValueOutOfBounds.value) := by
  refine ⟨fun a => ?_, ⟨rfl, rfl, rfl, rfl⟩, ⟨rfl, rfl, rfl, rfl⟩⟩
  cases a <;> exact ⟨rfl, rfl, fun _ => rfl⟩

/-- C8: `errorCodeToString` returns a non-empty string for every value of the
enumeration, that is for every value from 0 to 52. -/
theorem Utilities.errorCodeToString_ne_empty (ecode : ErrorCode) (h0 : 0 ≤ ecode)
    (h52 : ecode ≤ 52) : Utilities.errorCodeToString ecode ≠ "" := by
  interval_cases ecode <;> decide

/-- C8 at the value of `ErrorInvalidData3DValue`. -/
theorem Utilities.errorCodeToString_ne_empty_witness :
    (0 : ErrorCode) ≤ 52 ∧ (52 : ErrorCode) ≤ 52 ∧
      Utilities.errorCodeToString 52 = "passed an invalid value in Data3D pointFields" ∧
      Utilities.errorCodeToString 52 ≠ "" :=
  ⟨by decide, by decide, rfl,
    Utilities.errorCodeToString_ne_empty 52 (by decide) (by decide)⟩

/-! ## The exception carrier -/

/-- Passing an origin file name makes the constructor produce an object, whose
members are the arguments. -/
theorem E57Exception.new_some (k : ErrorCode) (c fileName : String) (srcLineNumber : Int)
    (srcFunctionName : Option String) :
    E57Exception.new k c (some fileName) srcLineNumber srcFunctionName
      = some ⟨k, c, fileName, srcFunctionName, srcLineNumber⟩ :=
  rfl

/-- C1: a failure constructed from an error kind `k` and a context string `c`
(the empty string included), with any origin arguments, satisfies
`errorCode() = k` and `context() = c`; the constructor yields such a failure
whenever an origin file name is passed. -/
theorem E57Exception.new_errorCode_context (k : ErrorCode) (c : String)
    (srcFileName : Option String) (srcLineNumber : Int) (srcFunctionName : Option String) :
    (srcFileName.isSome →
      (E57Exception.new k c srcFileName srcLineNumber srcFunctionName).isSome) ∧
    ∀ f : E57Exception,
      E57Exception.new k c srcFileName srcLineNumber srcFunctionName = some f →
        f.errorCode = k ∧ f.context = c := by
  cases srcFileName with
  | none => exact ⟨fun h => by simp at h, fun f h => by simp [E57Exception.new] at h⟩
  | some fileName =>
    refine ⟨fun _ => rfl, fun f h => ?_⟩
    rw [E57Exception.new_some] at h
    cases h
    exact ⟨rfl, rfl⟩

/-- C1 at `ErrorSeekFailed` with the empty context. -/
theorem E57Exception.new_errorCode_context_witness :
    ∃ f : E57Exception,
      E57Exception.new CanonicalKind.ErrorSeekFailed.value "" (some "CheckedFile.cpp") 310
          (some "seek") = some f ∧
        f.errorCode = CanonicalKind.ErrorSeekFailed.value ∧ f.context = "" :=
  ⟨_, rfl,
    (E57Exception.new_errorCode_context CanonicalKind.ErrorSeekFailed.value ""
      (some "CheckedFile.cpp") 310 (some "seek")).2 _ rfl⟩

/-- C2: `errorStr()` of a failure is `errorCodeToString` of its `errorCode()`;
hence two failures of the same kind have the same `errorStr()`, whatever their
context strings and origin members. -/
theorem E57Exception.errorStr_eq (f g : E57Exception) (h : f.errorCode = g.errorCode) :
    f.errorStr = Utilities.errorCodeToString f.errorCode ∧ f.errorStr = g.errorStr := by
  refine ⟨rfl, ?_⟩
  unfold E57Exception.errorStr
  unfold E57Exception.errorCode at h
  rw [h]

/-- C2 at two failures of kind `ErrorBadCVPacket` that differ in every other
member. -/
theorem E57Exception.errorStr_eq_witness :
    (⟨2, "packet 7", "Packet.cpp", some "verify", 120⟩ : E57Exception).errorStr
        = Utilities.errorCodeToString 2 ∧
      (⟨2, "packet 7", "Packet.cpp", some "verify", 120⟩ : E57Exception).errorStr
        = (⟨2, "", "Decoder.cpp", none, 0⟩ : E57Exception).errorStr :=
  E57Exception.errorStr_eq ⟨2, "packet 7", "Packet.cpp", some "verify", 120⟩
    ⟨2, "", "Decoder.cpp", none, 0⟩ rfl

/-- Every failure the constructor yields from `ErrorBadChecksum` and the context
"block 12 checksum mismatch" has `errorCode()` 16 and `errorStr()`
"checksum mismatch, file is corrupted", and without diagnostic output `report`
writes exactly one line, made of the marker and that description. -/
theorem E57Exception.badChecksum_scenario (srcFileName : Option String) (srcLineNumber : Int)
    (srcFunctionName : Option String) (f : E57Exception)
    (h : E57Exception.new CanonicalKind.ErrorBadChecksum.value "block 12 checksum mismatch"
      srcFileName srcLineNumber srcFunctionName = some f)
    (reportingFileName : Option String) (reportingLineNumber : Int)
    (reportingFunctionName : Option String) (os : String) :
    f.errorCode = 16 ∧
    f.errorStr = "checksum mismatch, file is corrupted" ∧
    f.report false reportingFileName reportingLineNumber reportingFunctionName os
      = some (os ++ "**** Got an e57 exception: checksum mismatch, file is corrupted\n") ∧
    "**** Got an e57 exception: checksum mismatch, file is corrupted\n".toList.count '\n'
      = 1 := by
  cases srcFileName with
  | none => simp [E57Exception.new] at h
  | some fileName =>
    rw [E57Exception.new_some] at h
    cases h
    refine ⟨rfl, rfl, ?_, by decide⟩
    show some (os ++ "**** Got an e57 exception: "
      ++ "checksum mismatch, file is corrupted" ++ "\n") = _
    rw [String.append_assoc, String.append_assoc]
    rfl

/-- The bad-checksum scenario with the origin `CheckedFile.cpp`, line 577,
reported to an empty stream. -/
theorem E57Exception.badChecksum_scenario_witness :
    ∃ f : E57Exception,
      E57Exception.new CanonicalKind.ErrorBadChecksum.value "block 12 checksum mismatch"
          (some "CheckedFile.cpp") 577 (some "verifyChecksum") = some f ∧
        f.errorCode = 16 ∧
        f.errorStr = "checksum mismatch, file is corrupted" ∧
        f.report false none 0 none ""
          = some ("" ++ "**** Got an e57 exception: checksum mismatch, file is corrupted\n") :=
  ⟨_, rfl,
    (E57Exception.badChecksum_scenario (some "CheckedFile.cpp") 577 (some "verifyChecksum") _
      rfl none 0 none "").1,
    (E57Exception.badChecksum_scenario (some "CheckedFile.cpp") 577 (some "verifyChecksum") _
      rfl none 0 none "").2.1,
    (E57Exception.badChecksum_scenario (some "CheckedFile.cpp") 577 (some "verifyChecksum") _
      rfl none 0 none "").2.2.1⟩

/-- C10: without diagnostic output, `report` appends to the stream exactly the
marker "**** Got an e57 exception: ", `errorStr()` and one line terminator;
what it writes is the same for two failures of the same kind, whatever their
contexts and origin members and whatever the reporting arguments. -/
theorem E57Exception.report_quiet (f g : E57Exception) (h : f.errorCode = g.errorCode)
    (reportingFileName reportingFileName2 : Option String)
    (reportingLineNumber reportingLineNumber2 : Int)
    (reportingFunctionName reportingFunctionName2 : Option String) (os : String) :
    f.report false reportingFileName reportingLineNumber reportingFunctionName os
      = some (os ++ ("**** Got an e57 exception: " ++ f.errorStr ++ endl)) ∧
    f.report false reportingFileName reportingLineNumber reportingFunctionName os
      = g.report false reportingFileName2 reportingLineNumber2 reportingFunctionName2 os := by
  have hs : f.errorStr = g.errorStr := by
    unfold E57Exception.errorStr
    unfold E57Exception.errorCode at h
    rw [h]
  constructor
  · show some (os ++ "**** Got an e57 exception: " ++ f.errorStr ++ endl) = _
    rw [String.append_assoc, String.append_assoc, ← String.append_assoc _ f.errorStr]
  · show some (os ++ "**** Got an e57 exception: " ++ f.errorStr ++ endl)
      = some (os ++ "**** Got an e57 exception: " ++ g.errorStr ++ endl)
    rw [hs]

/-- C10 at two failures of kind `ErrorOpenFailed` reported with different
arguments. -/
theorem E57Exception.report_quiet_witness :
    (⟨17, "cannot open scan.e57", "CheckedFile.cpp", some "open64", 98⟩ : E57Exception).report
        false (some "main.cpp") 12 (some "main") "log: "
      = some ("log: " ++ ("**** Got an e57 exception: " ++ "open() failed" ++ endl)) ∧
    (⟨17, "cannot open scan.e57", "CheckedFile.cpp", some "open64", 98⟩ : E57Exception).report
        false (some "main.cpp") 12 (some "main") "log: "
      = (⟨17, "", "Reader.cpp", none, 0⟩ : E57Exception).report false none 0 none "log: " :=
  E57Exception.report_quiet ⟨17, "cannot open scan.e57", "CheckedFile.cpp", some "open64", 98⟩
    ⟨17, "", "Reader.cpp", none, 0⟩ rfl (some "main.cpp") none 12 0 (some "main") none "log: "

/-! ## The report with diagnostic output -/

/-- With diagnostic output, the text `report` writes for a failure that has an
origin function name: the summary line, the debug header, the context line, the
origin function line, the reporting function line when that name is passed, the
origin marker line, and the reporting marker line when that file is passed. -/
theorem E57Exception.report_verbose_eq (f : E57Exception) (fn : String)
    (h : f.sourceFunctionName_ = some fn) (reportingFileName : Option String)
    (reportingLineNumber : Int) (reportingFunctionName : Option String) (os : String) :
    f.report true reportingFileName reportingLineNumber reportingFunctionName os
      = some (os
          ++ ("**** Got an e57 exception: " ++ f.errorStr ++ endl)
          ++ ("  Debug info: " ++ endl)
          ++ ("    context: " ++ f.context_ ++ endl)
          ++ ("    sourceFunctionName: " ++ fn ++ endl)
          ++ (match reportingFunctionName with
              | some name => "    reportingFunctionName: " ++ name ++ endl
              | none => "")
          ++ (f.sourceFileName_ ++ "(" ++ toString f.sourceLineNumber_ ++ ") : error C"
              ++ toString f.errorCode_ ++ ":  <--- occurred on" ++ endl)
          ++ (match reportingFileName with
              | some fileName => fileName ++ "(" ++ toString reportingLineNumber
                  ++ ") : error C0:  <--- reported on" ++ endl
              | none => "")) := by
  cases reportingFileName <;> cases reportingFunctionName <;>
    simp only [E57Exception.report, E57Exception.reportDiagnostics, h, String.append_assoc,
      String.append_empty, String.empty_append, if_true]

/-- With diagnostic output, `report` on a failure whose origin function name is
null inserts a null pointer into the stream. -/
theorem E57Exception.report_verbose_null (f : E57Exception) (h : f.sourceFunctionName_ = none)
    (reportingFileName : Option String) (reportingLineNumber : Int)
    (reportingFunctionName : Option String) (os : String) :
    f.report true reportingFileName reportingLineNumber reportingFunctionName os = none := by
  simp only [E57Exception.report, E57Exception.reportDiagnostics, h, if_true]

/-- For a failure that has an origin function name, with diagnostic output and
no reporting location passed, `report` writes, in this order, the description
line, the debug header, the context line, the origin function line and the
origin marker line "file(line) : error C<value>:  <--- occurred on", and nothing
after that marker line. -/
theorem E57Exception.report_verbose_no_location (f : E57Exception) (fn : String)
    (h : f.sourceFunctionName = some fn) (reportingLineNumber : Int) (os : String) :
    f.report true none reportingLineNumber none os
      = some (os
          ++ ("**** Got an e57 exception: " ++ f.errorStr ++ endl)
          ++ ("  Debug info: " ++ endl)
          ++ ("    context: " ++ f.context ++ endl)
          ++ ("    sourceFunctionName: " ++ fn ++ endl)
          ++ (f.sourceFileName ++ "(" ++ toString f.sourceLineNumber ++ ") : error C"
              ++ toString f.errorCode ++ ":  <--- occurred on" ++ endl)) := by
  rw [E57Exception.report_verbose_eq f fn h]
  simp only [String.append_empty, E57Exception.context, E57Exception.sourceFileName,
    E57Exception.sourceLineNumber, E57Exception.errorCode]

/-- The report without a reporting location at a failure of kind
`ErrorBadChecksum` raised in `verifyChecksum`, `CheckedFile.cpp`. -/
theorem E57Exception.report_verbose_no_location_witness :
    (⟨16, "block 12", "CheckedFile.cpp", some "verifyChecksum", 577⟩ : E57Exception).report
        true none 0 none ""
      = some ("**** Got an e57 exception: checksum mismatch, file is corrupted\n"
          ++ "  Debug info: \n"
          ++ "    context: block 12\n"
          ++ "    sourceFunctionName: verifyChecksum\n"
          ++ "CheckedFile.cpp(577) : error C16:  <--- occurred on\n") :=
  (E57Exception.report_verbose_no_location
    ⟨16, "block 12", "CheckedFile.cpp", some "verifyChecksum", 577⟩ "verifyChecksum" rfl 0
    "").trans (by rfl)

/-- C12, as stated, fails: when the reporting location includes a function name,
the output is not the output without a reporting location followed by the
"reported on" line, because a reporting function line is written as well. -/
theorem E57Exception.report_location_not_only_last_line :
    (⟨17, "cannot open", "CheckedFile.cpp", some "open64", 98⟩ : E57Exception).report
        true (some "main.cpp") 12 (some "main") ""
      ≠ ((⟨17, "cannot open", "CheckedFile.cpp", some "open64", 98⟩ : E57Exception).report
          true none 0 none "").map
        (fun out => out ++ "main.cpp(12) : error C0:  <--- reported on\n") := by
  decide

/-- C12, amended: with diagnostic output, for a failure that has an origin
function name, passing a reporting file `F` and line `L` gives the output
produced without a reporting file and with the same reporting function argument,
followed by exactly one more line, "F(L) : error C0:  <--- reported on"; that
output does not depend on the line number passed without a file. -/
theorem E57Exception.report_reporting_file_last_line (f : E57Exception) (fn : String)
    (h : f.sourceFunctionName = some fn) (fileName : String)
    (reportingLineNumber lineWithoutFile : Int) (reportingFunctionName : Option String)
    (os : String) :
    ∃ base : String,
      f.report true none lineWithoutFile reportingFunctionName os = some base ∧
      f.report true (some fileName) reportingLineNumber reportingFunctionName os
        = some (base ++ (fileName ++ "(" ++ toString reportingLineNumber
            ++ ") : error C0:  <--- reported on" ++ endl)) := by
  refine ⟨_, E57Exception.report_verbose_eq f fn h none lineWithoutFile reportingFunctionName os,
    ?_⟩
  rw [E57Exception.report_verbose_eq f fn h]
  simp only [String.append_empty]

/-- C12, amended, at a failure of kind `ErrorOpenFailed` reported from
`main.cpp`, line 12, with and without a reporting function name. -/
theorem E57Exception.report_reporting_file_last_line_witness :
    (∃ base : String,
      (⟨17, "cannot open", "CheckedFile.cpp", some "open64", 98⟩ : E57Exception).report
          true none 0 (some "main") "" = some base ∧
      (⟨17, "cannot open", "CheckedFile.cpp", some "open64", 98⟩ : E57Exception).report
          true (some "main.cpp") 12 (some "main") ""
        = some (base ++ ("main.cpp" ++ "(" ++ toString (12 : Int)
            ++ ") : error C0:  <--- reported on" ++ endl))) ∧
    (⟨17, "cannot open", "CheckedFile.cpp", some "open64", 98⟩ : E57Exception).report
        true (some "main.cpp") 12 none ""
      = ((⟨17, "cannot open", "CheckedFile.cpp", some "open64", 98⟩ : E57Exception).report
          true none 0 none "").map
        (fun out => out ++ "main.cpp(12) : error C0:  <--- reported on\n") :=
  ⟨E57Exception.report_reporting_file_last_line
      ⟨17, "cannot open", "CheckedFile.cpp", some "open64", 98⟩ "open64" rfl "main.cpp" 12 0
      (some "main") "",
    by rfl⟩

/-- C13: constructing a failure with all origin arguments left at their defaults
does not yield a failure: the `std::string` member `sourceFileName_` is
initialised from the null default of `srcFileName`. -/
theorem E57Exception.new_default_origin (k : ErrorCode) (c : String) :
    E57Exception.new k c E57Exception.defaultSrcFileName E57Exception.defaultSrcLineNumber
      E57Exception.defaultSrcFunctionName = none :=
  rfl

/-- C14: a failure constructed with an origin file and line and the origin
function left at its null default exists, `report` without diagnostic output
completes on it, and `report` with diagnostic output inserts the null origin
function name into the stream, whatever the reporting arguments, so that no
origin marker line is guaranteed. -/
theorem E57Exception.report_null_origin_function :
    ∃ f : E57Exception,
      E57Exception.new CanonicalKind.ErrorInternal.value "unexpected state"
          (some "E57XmlParser.cpp") 10 E57Exception.defaultSrcFunctionName = some f ∧
      (∀ (reportingFileName : Option String) (reportingLineNumber : Int)
          (reportingFunctionName : Option String) (os : String),
        (f.report false reportingFileName reportingLineNumber reportingFunctionName
          os).isSome) ∧
      ∀ (reportingFileName : Option String) (reportingLineNumber : Int)
          (reportingFunctionName : Option String) (os : String),
        f.report true reportingFileName reportingLineNumber reportingFunctionName os = none :=
  ⟨_, rfl, fun _ _ _ _ => rfl,
    fun reportingFileName reportingLineNumber reportingFunctionName os =>
      E57Exception.report_verbose_null _ rfl reportingFileName reportingLineNumber
        reportingFunctionName os⟩

/-- C15: `report` writes the one-line summary first: whatever the failure and
the reporting arguments, the text written with diagnostic output starts with the
text written without it, "**** Got an e57 exception: " followed by `errorStr()`
and a line terminator, and only adds text after it; the text with diagnostic
output exists whenever the failure has an origin function name. -/
theorem E57Exception.report_verbose_extends_quiet (f : E57Exception)
    (reportingFileName reportingFileName2 : Option String)
    (reportingLineNumber reportingLineNumber2 : Int)
    (reportingFunctionName reportingFunctionName2 : Option String) (os : String) :
    ∃ quiet : String,
      f.report false reportingFileName2 reportingLineNumber2 reportingFunctionName2 os
        = some quiet ∧
      quiet = os ++ ("**** Got an e57 exception: " ++ f.errorStr ++ endl) ∧
      (∀ loud : String,
        f.report true reportingFileName reportingLineNumber reportingFunctionName os
            = some loud →
          ∃ rest : String, loud = quiet ++ rest) ∧
      (f.sourceFunctionName.isSome →
        (f.report true reportingFileName reportingLineNumber reportingFunctionName
          os).isSome) := by
  refine ⟨os ++ ("**** Got an e57 exception: " ++ f.errorStr ++ endl), ?_, rfl, ?_, ?_⟩
  · show some (os ++ "**** Got an e57 exception: " ++ f.errorStr ++ endl) = _
    rw [String.append_assoc, String.append_assoc, ← String.append_assoc _ f.errorStr]
  · intro loud hloud
    cases hfn : f.sourceFunctionName_ with
    | none =>
      rw [E57Exception.report_verbose_null f hfn] at hloud
      cases hloud
    | some fn =>
      rw [E57Exception.report_verbose_eq f fn hfn] at hloud
      cases hloud
      simp only [String.append_assoc]
      exact ⟨_, rfl⟩
  · intro hsome
    cases hfn : f.sourceFunctionName_ with
    | none =>
      unfold E57Exception.sourceFunctionName at hsome
      rw [hfn] at hsome
      cases hsome
    | some fn =>
      rw [E57Exception.report_verbose_eq f fn hfn]
      rfl

/-- C15 at a failure of kind `ErrorOpenFailed` reported from `main.cpp`. -/
theorem E57Exception.report_verbose_extends_quiet_witness :
    ∃ rest : String,
      (⟨17, "cannot open", "CheckedFile.cpp", some "open64", 98⟩ : E57Exception).report
          true (some "main.cpp") 12 (some "main") ""
        = some ("**** Got an e57 exception: open() failed\n" ++ rest) := by
  obtain ⟨quiet, hquiet, -, hloud, -⟩ :=
    E57Exception.report_verbose_extends_quiet
      ⟨17, "cannot open", "CheckedFile.cpp", some "open64", 98⟩
      (some "main.cpp") none 12 0 (some "main") none ""
  have hq : quiet = "**** Got an e57 exception: open() failed\n" :=
    (Option.some.inj (hquiet.symm.trans (by rfl)))
  obtain ⟨rest, hrest⟩ := hloud _ rfl
  refine ⟨rest, ?_⟩
  rw [← hq, ← hrest]
  rfl

/-- C16: for every integral value outside the enumeration, below 0 or above 52,
`errorCodeToString` returns the one fixed string "unrecognized error code". -/
theorem Utilities.errorCodeToString_outside (ecode : ErrorCode) (h : ecode < 0 ∨ 52 < ecode) :
    Utilities.errorCodeToString ecode = "unrecognized error code" := by
  unfold Utilities.errorCodeToString
  split <;> first | rfl | exact absurd h (by decide)

/-- C16 at the values -1 and 53. -/
theorem Utilities.errorCodeToString_outside_witness :
    Utilities.errorCodeToString (-1) = "unrecognized error code" ∧
      Utilities.errorCodeToString 53 = "unrecognized error code" :=
  ⟨Utilities.errorCodeToString_outside (-1) (by decide),
    Utilities.errorCodeToString_outside 53 (by decide)⟩

/-- Looking up, in the list of deprecated enumerators, the position given by the
value of one of them finds that enumerator. -/
theorem DeprecatedAlias.all_at_value (a : DeprecatedAlias) :
    DeprecatedAlias.all[a.value.toNat]? = some a := by
  cases a <;> rfl

/-- Every position from 0 to 50 of the list of deprecated enumerators holds an
enumerator whose value is that position. -/
theorem DeprecatedAlias.all_at_of_range (n : ErrorCode) (h0 : 0 ≤ n) (h50 : n ≤ 50) :
    ∃ a, DeprecatedAlias.all[n.toNat]? = some a ∧ a.value = n := by
  interval_cases n <;> exact ⟨_, rfl, rfl⟩

/-- C17: the deprecated enumerators cover exactly the values 0..50, one each:
in declaration order, from `E57_SUCCESS` to `E57_ERROR_INVARIANCE_VIOLATION`,
the i-th has the value i; no two share a value; and `ErrorInvalidNodeType` (51)
and `ErrorInvalidData3DValue` (52) are the initialiser of none. -/
theorem DeprecatedAlias.values_in_declaration_order :
    DeprecatedAlias.all.map DeprecatedAlias.value = (List.range 51).map Int.ofNat ∧
    (∀ a : DeprecatedAlias, a ∈ DeprecatedAlias.all ∧ a.value = (a.toCtorIdx : Int)) ∧
    DeprecatedAlias.all.head? = some DeprecatedAlias.E57_SUCCESS ∧
    DeprecatedAlias.all.getLast? = some DeprecatedAlias.E57_ERROR_INVARIANCE_VIOLATION ∧
    (∀ a b : DeprecatedAlias, a.value = b.value → a = b) ∧
    (∀ n : ErrorCode, (∃ a : DeprecatedAlias, a.value = n) ↔ 0 ≤ n ∧ n ≤ 50) ∧
    CanonicalKind.ErrorInvalidNodeType.value = 51 ∧
    CanonicalKind.ErrorInvalidData3DValue.value = 52 ∧
    ∀ a : DeprecatedAlias, a.canonical ≠ CanonicalKind.ErrorInvalidNodeType ∧
      a.canonical ≠ CanonicalKind.ErrorInvalidData3DValue := by
  refine ⟨by decide, ?_, rfl, rfl, ?_, ?_, rfl, rfl, ?_⟩
  · intro a
    cases a <;> exact ⟨by decide, rfl⟩
  · intro a b hab
    have ha := DeprecatedAlias.all_at_value a
    have hb := DeprecatedAlias.all_at_value b
    rw [hab, hb] at ha
    exact (Option.some.inj ha).symm
  · intro n
    constructor
    · rintro ⟨a, rfl⟩
      cases a <;> decide
    · rintro ⟨h0, h50⟩
      obtain ⟨a, -, ha⟩ := DeprecatedAlias.all_at_of_range n h0 h50
      exact ⟨a, ha⟩
  · intro a
    cases a <;> exact ⟨by decide, by decide⟩

/-- With diagnostic output, for a failure that has an origin function name,
passing a reporting function name adds exactly the line
"    reportingFunctionName: <name>" between the origin function line and the
origin marker line, and no such line is written when that name is null; this
holds with and without a reporting file name. -/
theorem E57Exception.report_reporting_function_line (f : E57Exception) (fn : String)
    (h : f.sourceFunctionName = some fn) (reportingFileName : Option String)
    (reportingLineNumber : Int) (name : String) (os : String) :
    ∃ head rest : String,
      head = os ++ ("**** Got an e57 exception: " ++ f.errorStr ++ endl)
        ++ ("  Debug info: " ++ endl)
        ++ ("    context: " ++ f.context ++ endl)
        ++ ("    sourceFunctionName: " ++ fn ++ endl) ∧
      f.report true reportingFileName reportingLineNumber (some name) os
        = some (head ++ ("    reportingFunctionName: " ++ name ++ endl)
            ++ (f.sourceFileName ++ "(" ++ toString f.sourceLineNumber ++ ") : error C"
              ++ toString f.errorCode ++ ":  <--- occurred on" ++ endl)
            ++ rest) ∧
      f.report true reportingFileName reportingLineNumber none os
        = some (head
            ++ (f.sourceFileName ++ "(" ++ toString f.sourceLineNumber ++ ") : error C"
              ++ toString f.errorCode ++ ":  <--- occurred on" ++ endl)
            ++ rest) := by
  refine ⟨_,
    (match reportingFileName with
      | some fileName => fileName ++ "(" ++ toString reportingLineNumber
          ++ ") : error C0:  <--- reported on" ++ endl
      | none => ""),
    rfl, ?_, ?_⟩
  · rw [E57Exception.report_verbose_eq f fn h]
    rfl
  · rw [E57Exception.report_verbose_eq f fn h]
    simp only [String.append_empty]
    rfl

/-- The reporting function line at a failure of kind `ErrorOpenFailed` raised in
`open64`, reported without a reporting file name, with the reporting function
name "main" and without one. -/
theorem E57Exception.report_reporting_function_line_witness :
    ∃ head rest : String,
      head = "" ++ ("**** Got an e57 exception: " ++ "open() failed" ++ "\n")
        ++ ("  Debug info: " ++ "\n")
        ++ ("    context: " ++ "cannot open" ++ "\n")
        ++ ("    sourceFunctionName: " ++ "open64" ++ "\n") ∧
      (⟨17, "cannot open", "CheckedFile.cpp", some "open64", 98⟩ : E57Exception).report
          true none 0 (some "main") ""
        = some (head ++ ("    reportingFunctionName: " ++ "main" ++ "\n")
            ++ ("CheckedFile.cpp" ++ "(" ++ "98" ++ ") : error C" ++ "17"
              ++ ":  <--- occurred on" ++ "\n")
            ++ rest) ∧
      (⟨17, "cannot open", "CheckedFile.cpp", some "open64", 98⟩ : E57Exception).report
          true none 0 none ""
        = some (head
            ++ ("CheckedFile.cpp" ++ "(" ++ "98" ++ ") : error C" ++ "17"
              ++ ":  <--- occurred on" ++ "\n")
            ++ rest) :=
  E57Exception.report_reporting_function_line
    ⟨17, "cannot open", "CheckedFile.cpp", some "open64", 98⟩ "open64" rfl none 0 "main" ""

/-- C19: a failure constructed with an origin file name `s`, an origin line `n`
and an origin function name `fn` returns them unchanged from `sourceFileName()`,
`sourceLineNumber()` and `sourceFunctionName()`, whatever the kind and the
context. -/
theorem E57Exception.new_origin (k : ErrorCode) (c s : String) (n : Int)
    (fn : Option String) :
    ∃ f : E57Exception,
      E57Exception.new k c (some s) n fn = some f ∧
      f.sourceFileName = s ∧ f.sourceLineNumber = n ∧ f.sourceFunctionName = fn :=
  ⟨_, E57Exception.new_some k c s n fn, rfl, rfl, rfl⟩

/-- C20: `what()` returns the constant string "E57 exception" for every failure,
so it is the same for any two failures, whatever their kinds, contexts and
origin members. -/
theorem E57Exception.what_constant (f g : E57Exception) :
    f.what = "E57 exception" ∧ f.what = g.what :=
  ⟨rfl, rfl⟩

/-! ## The scenarios that meet a null origin pointer -/

/-- C9: the construction from `ErrorBadChecksum` and the context
"block 12 checksum mismatch" alone, the origin arguments left at their defaults,
yields no failure: the `std::string` member `sourceFileName_` is initialised
from the null default of `srcFileName`. There is then no object whose
`errorCode()`, `errorStr()` and report could be observed. -/
theorem E57Exception.badChecksum_default_origin :
    E57Exception.new CanonicalKind.ErrorBadChecksum.value "block 12 checksum mismatch"
      E57Exception.defaultSrcFileName E57Exception.defaultSrcLineNumber
      E57Exception.defaultSrcFunctionName = none :=
  rfl

/-- C11: a failure constructed with an origin file and line and the origin
function left at its null default exists, and with diagnostic output and no
reporting location `report` inserts the null origin function name into the
stream, so that neither the origin function line nor the origin marker line is
guaranteed. -/
theorem E57Exception.report_no_location_null_origin_function :
    ∃ f : E57Exception,
      E57Exception.new CanonicalKind.ErrorBadChecksum.value "block 12" (some "CheckedFile.cpp")
          577 E57Exception.defaultSrcFunctionName = some f ∧
      ∀ (reportingLineNumber : Int) (os : String),
        f.report true none reportingLineNumber none os = none :=
  ⟨_, rfl, fun reportingLineNumber os =>
    E57Exception.report_verbose_null _ rfl none reportingLineNumber none os⟩

/-- C18: a failure constructed with an origin file and line and the origin
function left at its null default exists, and with diagnostic output `report`
called with a reporting function name inserts the null origin function name
into the stream before it reaches the reporting function line, with and without
a reporting file name, so that this line is not guaranteed. -/
theorem E57Exception.report_reporting_function_null_origin_function :
    ∃ f : E57Exception,
      E57Exception.new CanonicalKind.ErrorOpenFailed.value "cannot open" (some "CheckedFile.cpp")
          98 E57Exception.defaultSrcFunctionName = some f ∧
      ∀ (reportingFileName : Option String) (reportingLineNumber : Int) (name os : String),
        f.report true reportingFileName reportingLineNumber (some name) os = none :=
  ⟨_, rfl, fun reportingFileName reportingLineNumber name os =>
    E57Exception.report_verbose_null _ rfl reportingFileName reportingLineNumber (some name)
      os⟩

end e57
